import Mathlib

/-!
Verification of the OwlRelay relay server against its specification.

The definitions below are a shallow embedding of the Go sources:
`relay/internal/middleware/ratelimit.go`, the hub package (`hub.go`),
`relay/internal/handlers/handlers.go` and `relay/internal/store/token.go`.
Go `time.Time` values are modelled as nanosecond counts (`Nat`); Go maps are
modelled as association lists with replace-on-insert semantics; fallible or
panicking code is modelled with explicit outcome types.
-/

namespace OwlRelay

/-! ### Rate limiter (relay/internal/middleware/ratelimit.go) -/

def nsPerSec : Nat := 1000000000

/-- Go `time.Minute` in nanoseconds. -/
def minuteNs : Nat := 60 * nsPerSec

/-- ratelimit.go `tokenLimit`: count and window end (`resetAt`). -/
structure TokenLimit where
  count : Nat
  resetAt : Nat
deriving Repr, DecidableEq

/-- The `limits` map of `RateLimiter`, keyed by token id string. -/
abbrev RLState := List (String × TokenLimit)

def rlLookup : RLState → String → Option TokenLimit
  | [], _ => none
  | (k, v) :: rest, key => if k = key then some v else rlLookup rest key

def rlInsert : RLState → String → TokenLimit → RLState
  | [], key, v => [(key, v)]
  | (k, w) :: rest, key, v =>
    if k = key then (key, v) :: rest else (k, w) :: rlInsert rest key v

/-- `RateLimiter.allow` (ratelimit.go:68-90).  The Go test
`!exists || tl.resetAt.Before(now)` resets the window; `Before` is a strict
comparison.  The in-place `tl.count++` is modelled by re-inserting the entry. -/
def allow (s : RLState) (key : String) (limit : Nat) (now : Nat) : Bool × RLState :=
  match rlLookup s key with
  | none => (true, rlInsert s key ⟨1, now + minuteNs⟩)
  | some tl =>
    if tl.resetAt < now then
      (true, rlInsert s key ⟨1, now + minuteNs⟩)
    else if limit ≤ tl.count then
      (false, s)
    else
      (true, rlInsert s key ⟨tl.count + 1, tl.resetAt⟩)

/-- `RateLimiter.getRetryAfter` (ratelimit.go:92-103), taken at a second clock
reading `now2`.  For `0 < remaining < 2^53` ns the Go expression
`int(remaining.Seconds()) + 1` truncates toward zero and equals
`remaining / 10^9 + 1` (the float64 quotient cannot round across an integer
at these magnitudes). -/
def getRetryAfter (s : RLState) (key : String) (now2 : Nat) : Nat :=
  match rlLookup s key with
  | none => 1
  | some tl =>
    if now2 < tl.resetAt then (tl.resetAt - now2) / nsPerSec + 1 else 1

/-- Modelled from the spec (§4.2), for comparison with `allow`: reset when
there is no entry or `now ≥ windowEndAt`; increment when `count < limit`;
otherwise deny. -/
def specAllow (s : RLState) (key : String) (limit : Nat) (now : Nat) : Bool × RLState :=
  match rlLookup s key with
  | none => (true, rlInsert s key ⟨1, now + minuteNs⟩)
  | some tl =>
    if tl.resetAt ≤ now then
      (true, rlInsert s key ⟨1, now + minuteNs⟩)
    else if tl.count < limit then
      (true, rlInsert s key ⟨tl.count + 1, tl.resetAt⟩)
    else
      (false, s)

/-- Modelled from the spec (§4.2), for comparison with `getRetryAfter`:
`retryAfter = ceil(windowEndAt - now)` in seconds, minimum 1. -/
def specRetryAfter (s : RLState) (key : String) (now2 : Nat) : Nat :=
  match rlLookup s key with
  | none => 1
  | some tl => max 1 ((tl.resetAt - now2 + (nsPerSec - 1)) / nsPerSec)

/-- Observable outcome of the rate-limit middleware for one request. -/
inductive RLOutcome where
  | pass
  | limited (status : Nat) (retryAfterHeader : Nat) (retryAfterBody : Nat)
deriving Repr, DecidableEq

/-- `RateLimiter.RateLimit` middleware (ratelimit.go:35-66): the key is the
decimal token id, a non-positive stored limit falls back to 100; on denial the
`Retry-After` header and the JSON `retryAfter` both carry the same
`getRetryAfter` value with status 429.  `now` is the clock reading inside
`allow`, `now2` the later reading inside `getRetryAfter`. -/
def rateLimitMW (s : RLState) (tokenId : Nat) (tokenRateLimit : Nat) (now now2 : Nat) :
    RLOutcome × RLState :=
  let key := toString tokenId
  let limit := if tokenRateLimit = 0 then 100 else tokenRateLimit
  let res := allow s key limit now
  if res.1 then (.pass, res.2)
  else
    let r := getRetryAfter res.2 key now2
    (.limited 429 r r, res.2)

/-! ### Hub: registry, takeover and tear-down (hub.go) -/

/-- One `hub.Connection`.  `connId` stands for the identity of the Go pointer;
the done-channel and the socket are each modelled by a closed-flag. -/
structure Conn where
  connId : Nat
  tokenHash : String
  doneClosed : Bool
  sockClosed : Bool
deriving Repr, DecidableEq

/-- The Hub's session registry (digest to connection identity) together with
every connection constructed so far. -/
structure HubState where
  sessions : List (String × Nat)
  conns : List Conn
deriving Repr, DecidableEq

def sessLookup : List (String × Nat) → String → Option Nat
  | [], _ => none
  | (k, v) :: rest, key => if k = key then some v else sessLookup rest key

def sessInsert : List (String × Nat) → String → Nat → List (String × Nat)
  | [], key, v => [(key, v)]
  | (k, w) :: rest, key, v =>
    if k = key then (key, v) :: rest else (k, w) :: sessInsert rest key v

def sessErase : List (String × Nat) → String → List (String × Nat)
  | [], _ => []
  | (k, w) :: rest, key => if k = key then rest else (k, w) :: sessErase rest key

/-- Mark a connection's done-channel and socket closed. -/
def markClosed (cs : List Conn) (i : Nat) : List Conn :=
  cs.map (fun c =>
    if c.connId = i then { c with doneClosed := true, sockClosed := true } else c)

/-- `Hub.Register` (hub.go): construct the fresh connection; when an entry
already exists for the digest, close the old connection's done-channel and
socket (takeover); then store the new connection under the digest. -/
def Register (st : HubState) (tokenHash : String) (newId : Nat) : HubState :=
  let conns1 : List Conn := ⟨newId, tokenHash, false, false⟩ :: st.conns
  match sessLookup st.sessions tokenHash with
  | some oldId =>
    { sessions := sessInsert st.sessions tokenHash newId
      conns := markClosed conns1 oldId }
  | none =>
    { sessions := sessInsert st.sessions tokenHash newId
      conns := conns1 }

/-- Result of `Hub.Unregister`: the state after the identity-checked registry
removal, and whether the unconditional `close(c.done)` panicked. -/
structure UnregResult where
  state : HubState
  panicked : Bool
deriving Repr, DecidableEq

/-- `Hub.Unregister` (hub.go): delete the registry entry only when it still
points at this exact connection, then run `close(c.done)` and `c.Conn.Close()`.
In Go, `close` on an already-closed channel panics at run time; the takeover
path of `Register` is what closes a superseded connection's done-channel.
The unconstructed-id case is unreachable from the code. -/
def Unregister (st : HubState) (i : Nat) : UnregResult :=
  match st.conns.find? (fun c => c.connId == i) with
  | none => ⟨st, false⟩
  | some c =>
    let sessions1 :=
      match sessLookup st.sessions c.tokenHash with
      | some j => if j = i then sessErase st.sessions c.tokenHash else st.sessions
      | none => st.sessions
    if c.doneClosed then ⟨{ sessions := sessions1, conns := st.conns }, true⟩
    else ⟨{ sessions := sessions1, conns := markClosed st.conns i }, false⟩

/-- The registry state reached by registering connection 1 for digest "d" and
then connection 2 for the same digest (takeover). -/
def takeoverState : HubState := Register (Register ⟨[], []⟩ "d" 1) "d" 2

/-! ### Hub: dispatch outcomes and REST error mapping
(hub.go `SendCommand` / `HandleResponse`, handlers.go) -/

/-- models.CommandError. -/
structure CommandError where
  code : String
  message : String
deriving Repr, DecidableEq

/-- models.CommandResponse.  The `result` payload is kept opaque as an
optional string; the timing block is not needed by any claim. -/
structure CommandResponse where
  id : String
  success : Bool
  result : Option String
  error : Option CommandError
deriving Repr, DecidableEq

/-- The two error shapes `SendCommand` can return: a `*hub.HubError` with a
code, or a plain error (a context error or a marshalling error). -/
inductive SendErr where
  | hub (code message : String)
  | other (message : String)
deriving Repr, DecidableEq

/-- `ErrNotConnected` (hub.go). -/
def errNotConnected : SendErr := .hub "EXTENSION_OFFLINE" "Extension is not connected"

/-- `ErrTimeout` (hub.go). -/
def errTimeout : SendErr := .hub "TIMEOUT" "Command timed out"

/-- Scheduler event that unblocks the enqueue select of `SendCommand`.  The
select has no default case, so with a full outbound queue it blocks until one
of these fires; with room in the queue the send itself is immediately
enabled. -/
inductive EnqueueEvent where
  | slotFreed
  | ctxDone
  | sessionDone
deriving Repr, DecidableEq

/-- Event that ends the four-way response wait of `SendCommand`. -/
inductive WaitEvent where
  | response (r : CommandResponse)
  | timerFired
  | ctxDone
  | sessionDone
deriving Repr, DecidableEq

/-- `Hub.SendCommand` (hub.go) as a function of the scheduler events: session
lookup, the enqueue select, then the response wait on the channel, the
timeout timer, the caller context and the session done-channel.  `ctxMsg` is
the message of `ctx.Err()`. -/
def sendCommandOutcome (sessionPresent queueFull : Bool) (ctxMsg : String)
    (enqEv : EnqueueEvent) (waitEv : WaitEvent) : Except SendErr CommandResponse :=
  if sessionPresent = false then .error errNotConnected
  else
    let enqueueExit : Option (Except SendErr CommandResponse) :=
      if queueFull then
        match enqEv with
        | .slotFreed => none
        | .ctxDone => some (.error (.other ctxMsg))
        | .sessionDone => some (.error errNotConnected)
      else none
    match enqueueExit with
    | some r => r
    | none =>
      match waitEv with
      | .response r => .ok r
      | .timerFired => .error errTimeout
      | .ctxDone => .error (.other ctxMsg)
      | .sessionDone => .error errNotConnected

/-- `Handlers.Command` error mapping (handlers.go:151-161): a HubError maps to
503 except code TIMEOUT, which maps to 504; any other error maps to 500
INTERNAL_ERROR with the error's message. -/
def commandErrHttp : SendErr → Nat × String × String
  | .hub code msg => (if code = "TIMEOUT" then 504 else 503, code, msg)
  | .other msg => (500, "INTERNAL_ERROR", msg)

/-- `Handlers.Screenshot` error mapping (handlers.go:217-225): every HubError
maps to 503 with its own code; any other error maps to 500 INTERNAL_ERROR. -/
def screenshotErrHttp : SendErr → Nat × String × String
  | .hub code msg => (503, code, msg)
  | .other msg => (500, "INTERNAL_ERROR", msg)

/-- `Handlers.Snapshot` error mapping (handlers.go:329-337), identical in
shape to the screenshot handler's. -/
def snapshotErrHttp : SendErr → Nat × String × String
  | .hub code msg => (503, code, msg)
  | .other msg => (500, "INTERNAL_ERROR", msg)

/-! ### Hub: pending-request table (hub.go `SendCommand` / `HandleResponse`) -/

/-- A pending response channel of capacity one: empty or holding a value. -/
abbrev Slot := Option CommandResponse

/-- The `pending` map of the Hub, keyed by correlation id. -/
abbrev PendingTable := List (String × Slot)

def pendLookup : PendingTable → String → Option Slot
  | [], _ => none
  | (k, v) :: rest, key => if k = key then some v else pendLookup rest key

def pendInsert : PendingTable → String → Slot → PendingTable
  | [], key, v => [(key, v)]
  | (k, w) :: rest, key, v =>
    if k = key then (key, v) :: rest else (k, w) :: pendInsert rest key v

def pendErase : PendingTable → String → PendingTable
  | [], _ => []
  | (k, w) :: rest, key => if k = key then rest else (k, w) :: pendErase rest key

inductive TableOp where
  | install (id : String)
  | remove (id : String)
deriving Repr, DecidableEq, BEq

def applyOp (t : PendingTable) : TableOp → PendingTable
  | .install i => pendInsert t i none
  | .remove i => pendErase t i

def applyOps (t : PendingTable) (ops : List TableOp) : PendingTable :=
  ops.foldl applyOp t

/-- The pending-table operations `Hub.SendCommand` performs: when the session
is present it installs the fresh response channel under the correlation id
and the deferred delete removes it on every return path (response, timeout,
context cancellation, session death, marshalling failure alike); when the
session is absent it returns before touching the table. -/
def sendCommandTableOps (cmdId : String) (sessionPresent : Bool) : List TableOp :=
  if sessionPresent then [.install cmdId, .remove cmdId] else []

/-- `Hub.SendCommand` outcome paired with its net effect on the pending
table. -/
def sendCommandWithTable (t : PendingTable) (cmdId : String)
    (sessionPresent queueFull : Bool) (ctxMsg : String)
    (enqEv : EnqueueEvent) (waitEv : WaitEvent) :
    Except SendErr CommandResponse × PendingTable :=
  (sendCommandOutcome sessionPresent queueFull ctxMsg enqEv waitEv,
   applyOps t (sendCommandTableOps cmdId sessionPresent))

/-- `Hub.HandleResponse` (hub.go): look up the channel under the response id;
deliver with a non-blocking send into the capacity-one channel (drop when the
buffer already holds a value); with no pending entry the response is
dropped. -/
def HandleResponse (t : PendingTable) (resp : CommandResponse) : PendingTable :=
  match pendLookup t resp.id with
  | none => t
  | some none => pendInsert t resp.id (some resp)
  | some (some _) => t

/-! ### Screenshot and snapshot failure branch (handlers.go) -/

/-- Outcome of the handlers' branch on a decoded command response. -/
inductive HandlerReply where
  | reply (status : Nat) (code message : String)
  | successPath
  | panicked
deriving Repr, DecidableEq

/-- `Handlers.Screenshot` at handlers.go:227-230: on `!resp.Success` it writes
status 400 with `resp.Error.Code` and `resp.Error.Message`.  `Error` is an
optional pointer in the wire schema, and dereferencing it while absent is a
nil-pointer panic, modelled as `panicked`. -/
def screenshotOnResponse (resp : CommandResponse) : HandlerReply :=
  if resp.success then .successPath
  else
    match resp.error with
    | some e => .reply 400 e.code e.message
    | none => .panicked

/-- `Handlers.Snapshot` at handlers.go:339-342, the identical failure
branch. -/
def snapshotOnResponse (resp : CommandResponse) : HandlerReply :=
  if resp.success then .successPath
  else
    match resp.error with
    | some e => .reply 400 e.code e.message
    | none => .panicked

/-! ### Token store (relay/internal/store/token.go) -/

/-- One row of the `tokens` table. -/
structure TokenRow where
  id : Int
  hash : String
  name : String
  rateLimit : Int
  createdAt : Option String
  lastUsedAt : Option String
  revokedAt : Option String
deriving Repr, DecidableEq

abbrev TokenDB := List TokenRow

/-- models.Token as populated by `Validate`. -/
structure Token where
  id : Int
  hash : String
  name : String
  rateLimit : Int
deriving Repr, DecidableEq

/-- One lowercase hex digit. -/
def hexDigitChar (n : Nat) : Char :=
  if n < 10 then Char.ofNat (48 + n) else Char.ofNat (87 + n)

def hexChars (bytes : List Nat) : List Char :=
  bytes.foldr (fun b acc => hexDigitChar (b / 16) :: hexDigitChar (b % 16) :: acc) []

/-- `hex.EncodeToString`: two lowercase hex digits per byte. -/
def hexEncode (bytes : List Nat) : String :=
  String.mk (hexChars bytes)

def isHexChar (c : Char) : Bool :=
  (48 ≤ c.toNat && c.toNat ≤ 57) || (97 ≤ c.toNat && c.toNat ≤ 102)

/-- `store.GenerateToken` (token.go:27-34): 24 bytes from crypto/rand (passed
in here as `randomBytes`), hex-encoded after the fixed ASCII tag. -/
def GenerateToken (randomBytes : List Nat) : String :=
  "owl_" ++ hexEncode randomBytes

/-- `store.HashToken` (token.go:36-40): hex of the SHA-256 digest of the whole
token string; the hash function itself is the `sha256` parameter (it returns
32 bytes). -/
def HashToken (sha256 : String → List Nat) (token : String) : String :=
  hexEncode (sha256 token)

/-- The row `Create` inserts (token.go:42-60): digest and metadata only. -/
structure InsertedRow where
  hash : String
  name : String
  rateLimit : Int
  createdAt : String
deriving Repr, DecidableEq

/-- `store.TokenStore.Create` (token.go:42-60): generate the token, hash it,
insert digest plus metadata; return the plaintext. -/
def Create (sha256 : String → List Nat) (randomBytes : List Nat)
    (name : String) (rateLimit : Int) (nowStr : String) : String × InsertedRow :=
  let token := GenerateToken randomBytes
  (token, ⟨HashToken sha256 token, name, rateLimit, nowStr⟩)

/-- Result of the single-row query in `Validate`: `sql.ErrNoRows`, a row, or
another database error. -/
inductive QueryResult where
  | noRows
  | found (r : TokenRow)
  | dbError (e : String)
deriving Repr, DecidableEq

def queryByHash (db : TokenDB) (dbFail : Option String) (h : String) : QueryResult :=
  match dbFail with
  | some e => .dbError e
  | none =>
    match db.find? (fun r => r.hash == h) with
    | none => .noRows
    | some r => .found r

/-- `store.TokenStore.Validate` (token.go:62-104): recompute the digest, look
the row up by it; `sql.ErrNoRows` and a revoked row both give the non-error
not-valid result; any other query error surfaces wrapped.  The asynchronous
last-used stamp has no effect on the returned value and is not modelled. -/
def Validate (sha256 : String → List Nat) (db : TokenDB) (dbFail : Option String)
    (token : String) : Except String (Option Token) :=
  match queryByHash db dbFail (HashToken sha256 token) with
  | .noRows => .ok none
  | .dbError e => .error ("failed to query token: " ++ e)
  | .found r =>
    if r.revokedAt.isSome then .ok none
    else .ok (some ⟨r.id, r.hash, r.name, r.rateLimit⟩)

/-- `store.TokenStore.Revoke` (token.go:143-159): `UPDATE tokens SET
revoked_at = now WHERE id = ? AND revoked_at IS NULL`; zero affected rows is
the "token not found or already revoked" error.  Returns the result together
with the database after the update. -/
def Revoke (db : TokenDB) (dbFail : Option String) (id : Int) (nowStr : String) :
    Except String Unit × TokenDB :=
  match dbFail with
  | some e => (.error ("failed to revoke token: " ++ e), db)
  | none =>
    let affected := db.countP (fun r => r.id == id && r.revokedAt.isNone)
    let db1 := db.map (fun r =>
      if r.id == id && r.revokedAt.isNone then { r with revokedAt := some nowStr } else r)
    if affected == 0 then (.error "token not found or already revoked", db1)
    else (.ok (), db1)

end OwlRelay

namespace OwlRelay

/-! ### Claim theorems -/

/-- C5 counterexample: the code does not follow the spec's algorithm exactly.
At `now = windowEndAt` the spec resets and allows while the code denies, and
at an exact whole-second remainder the code reports `floor + 1 = 61` where
the spec's `ceil` gives 60. -/
theorem C5_counterexample :
    allow [("7", ⟨1, minuteNs⟩)] "7" 1 minuteNs
      ≠ specAllow [("7", ⟨1, minuteNs⟩)] "7" 1 minuteNs
    ∧ getRetryAfter [("7", ⟨3, 2 * minuteNs⟩)] "7" minuteNs
      ≠ specRetryAfter [("7", ⟨3, 2 * minuteNs⟩)] "7" minuteNs := by
  constructor
  · decide
  · decide

/-- C5 (amended): the code's fixed-window algorithm resets when there is no
entry or `now` is strictly later than `windowEndAt`; with an entry whose
window is still open (`now ≤ windowEndAt`) it increments when
`count < limit` and denies otherwise; on denial the reported value is
`floor(secondsRemaining) + 1` when the window end is still ahead and 1
otherwise, hence at least 1. -/
theorem C5_allow_characterization (s : RLState) (key : String) (limit now : Nat) :
    (rlLookup s key = none →
      allow s key limit now = (true, rlInsert s key ⟨1, now + minuteNs⟩))
    ∧ (∀ tl, rlLookup s key = some tl → tl.resetAt < now →
      allow s key limit now = (true, rlInsert s key ⟨1, now + minuteNs⟩))
    ∧ (∀ tl, rlLookup s key = some tl → now ≤ tl.resetAt → tl.count < limit →
      allow s key limit now = (true, rlInsert s key ⟨tl.count + 1, tl.resetAt⟩))
    ∧ (∀ tl, rlLookup s key = some tl → now ≤ tl.resetAt → limit ≤ tl.count →
      allow s key limit now = (false, s))
    ∧ (∀ tl, rlLookup s key = some tl → now < tl.resetAt →
      getRetryAfter s key now = (tl.resetAt - now) / nsPerSec + 1)
    ∧ (∀ tl, rlLookup s key = some tl → tl.resetAt ≤ now →
      getRetryAfter s key now = 1)
    ∧ 1 ≤ getRetryAfter s key now := by
  refine ⟨?_, ?_, ?_, ?_, ?_, ?_, ?_⟩
  · intro h
    simp [allow, h]
  · intro tl h hlt
    simp [allow, h, hlt]
  · intro tl h hle hcnt
    simp [allow, h]
    rw [if_neg (by omega), if_neg (by omega)]
  · intro tl h hle hcnt
    simp [allow, h]
    rw [if_neg (by omega), if_pos hcnt]
  · intro tl h hlt
    simp [getRetryAfter, h, hlt]
  · intro tl h hle
    simp [getRetryAfter, h]
    omega
  · unfold getRetryAfter
    match rlLookup s key with
    | none => simp
    | some tl =>
      by_cases hlt : now < tl.resetAt
      · simp [hlt]
      · simp [hlt]

/-- C5 witness: the characterization applied at concrete inputs. -/
theorem C5_allow_characterization_witness :
    allow [] "7" 3 5 = (true, [("7", ⟨1, 60000000005⟩)])
    ∧ getRetryAfter [("7", ⟨3, 1000000005⟩)] "7" 5 = 2 := by
  constructor
  · have h := (C5_allow_characterization [] "7" 3 5).1 rfl
    rw [h]
    decide
  · have h := (C5_allow_characterization [("7", ⟨3, 1000000005⟩)] "7" 3 5).2.2.2.2.1
      ⟨3, 1000000005⟩ rfl (by decide)
    rw [h]
    decide

/-- C6: with an rpm limit of 3, four rapid requests inside one window (the
fourth strictly after the first) produce three passes and one 429 denial
whose `retryAfter` lies in `[1, 60]` and is carried identically in the
`Retry-After` header and the JSON body.  `t5` is the clock reading inside
`getRetryAfter` on the denied call. -/
theorem C6_rpm3_four_calls (tid : Nat) (t1 t2 t3 t4 t5 : Nat)
    (h12 : t1 ≤ t2) (h23 : t2 ≤ t3) (h34 : t3 ≤ t4) (h45 : t4 ≤ t5)
    (h15 : t1 < t5) (hwin : t5 < t1 + minuteNs) :
    ∃ r,
      (rateLimitMW [] tid 3 t1 t1).1 = .pass
      ∧ (rateLimitMW (rateLimitMW [] tid 3 t1 t1).2 tid 3 t2 t2).1 = .pass
      ∧ (rateLimitMW (rateLimitMW (rateLimitMW [] tid 3 t1 t1).2 tid 3 t2 t2).2
          tid 3 t3 t3).1 = .pass
      ∧ (rateLimitMW (rateLimitMW (rateLimitMW (rateLimitMW [] tid 3 t1 t1).2
          tid 3 t2 t2).2 tid 3 t3 t3).2 tid 3 t4 t5).1 = .limited 429 r r
      ∧ 1 ≤ r ∧ r ≤ 60 := by
  have hM : minuteNs = 60 * nsPerSec := rfl
  have hsec : 0 < nsPerSec := by decide
  have a1 : allow [] (toString tid) 3 t1
      = (true, [(toString tid, ⟨1, t1 + minuteNs⟩)]) := by
    simp [allow, rlLookup, rlInsert]
  have a2 : allow [(toString tid, ⟨1, t1 + minuteNs⟩)] (toString tid) 3 t2
      = (true, [(toString tid, ⟨2, t1 + minuteNs⟩)]) := by
    simp [allow, rlLookup, rlInsert]
    omega
  have a3 : allow [(toString tid, ⟨2, t1 + minuteNs⟩)] (toString tid) 3 t3
      = (true, [(toString tid, ⟨3, t1 + minuteNs⟩)]) := by
    simp [allow, rlLookup, rlInsert]
    omega
  have a4 : allow [(toString tid, ⟨3, t1 + minuteNs⟩)] (toString tid) 3 t4
      = (false, [(toString tid, ⟨3, t1 + minuteNs⟩)]) := by
    simp [allow, rlLookup, rlInsert]
    omega
  have g4 : getRetryAfter [(toString tid, ⟨3, t1 + minuteNs⟩)] (toString tid) t5
      = (t1 + minuteNs - t5) / nsPerSec + 1 := by
    simp [getRetryAfter, rlLookup]
    omega
  have e1 : rateLimitMW [] tid 3 t1 t1
      = (.pass, [(toString tid, ⟨1, t1 + minuteNs⟩)]) := by
    simp [rateLimitMW, a1]
  have e2 : rateLimitMW [(toString tid, ⟨1, t1 + minuteNs⟩)] tid 3 t2 t2
      = (.pass, [(toString tid, ⟨2, t1 + minuteNs⟩)]) := by
    simp [rateLimitMW, a2]
  have e3 : rateLimitMW [(toString tid, ⟨2, t1 + minuteNs⟩)] tid 3 t3 t3
      = (.pass, [(toString tid, ⟨3, t1 + minuteNs⟩)]) := by
    simp [rateLimitMW, a3]
  have e4 : rateLimitMW [(toString tid, ⟨3, t1 + minuteNs⟩)] tid 3 t4 t5
      = (.limited 429 ((t1 + minuteNs - t5) / nsPerSec + 1)
          ((t1 + minuteNs - t5) / nsPerSec + 1),
         [(toString tid, ⟨3, t1 + minuteNs⟩)]) := by
    simp [rateLimitMW, a4, g4]
  refine ⟨(t1 + minuteNs - t5) / nsPerSec + 1, ?_, ?_, ?_, ?_, ?_, ?_⟩
  · rw [e1]
  · rw [e1, e2]
  · rw [e1, e2, e3]
  · rw [e1, e2, e3, e4]
  · exact Nat.succ_le_succ (Nat.zero_le _)
  · have hrem : t1 + minuteNs - t5 < 60 * nsPerSec := by
      rw [hM] at hwin ⊢
      omega
    exact (Nat.div_lt_iff_lt_mul hsec).2 hrem

/-- C6 witness: four calls with token id 7 at 0 s, 1 s, 1 s, 1 s. -/
theorem C6_rpm3_four_calls_witness :
    ∃ r,
      (rateLimitMW [] 7 3 0 0).1 = .pass
      ∧ (rateLimitMW (rateLimitMW [] 7 3 0 0).2 7 3 1000000000 1000000000).1 = .pass
      ∧ (rateLimitMW (rateLimitMW (rateLimitMW [] 7 3 0 0).2 7 3 1000000000
          1000000000).2 7 3 1000000000 1000000000).1 = .pass
      ∧ (rateLimitMW (rateLimitMW (rateLimitMW (rateLimitMW [] 7 3 0 0).2
          7 3 1000000000 1000000000).2 7 3 1000000000 1000000000).2
          7 3 1000000000 1000000000).1 = .limited 429 r r
      ∧ 1 ≤ r ∧ r ≤ 60 :=
  C6_rpm3_four_calls 7 0 1000000000 1000000000 1000000000 1000000000
    (by decide) (by decide) (by decide) (by decide) (by decide) (by decide)

/-- C1 (code bug): after a takeover of digest "d" (connection 1 superseded by
connection 2), `Register` has already closed connection 1's done-channel;
connection 1's tear-down `Unregister` leaves the replacement registered (the
identity check removes nothing) but panics on `close(c.done)` — close of an
already-closed channel — instead of completing without a fault. -/
theorem C1_superseded_unregister_panics :
    takeoverState.conns.find? (fun c => c.connId == 1) = some ⟨1, "d", true, true⟩
    ∧ (Unregister takeoverState 1).state.sessions = [("d", 2)]
    ∧ (Unregister takeoverState 1).panicked = true := by
  decide

/-- C2 counterexample: with the target session's outbound queue full at
enqueue time and the caller's context expiring while the dispatch is blocked,
`SendCommand` returns the plain context error — there is no "connection
backpressured" signal anywhere in the hub — and the command handler surfaces
it as 500 INTERNAL_ERROR, not as a retryable 503. -/
theorem C2_counterexample :
    sendCommandOutcome true true "context deadline exceeded" .ctxDone .timerFired
      = .error (.other "context deadline exceeded")
    ∧ commandErrHttp (.other "context deadline exceeded")
      = (500, "INTERNAL_ERROR", "context deadline exceeded")
    ∧ (commandErrHttp (.other "context deadline exceeded")).1 ≠ 503 :=
  ⟨rfl, rfl, by decide⟩

/-- C2 (amended): a full outbound queue never produces a backpressure
failure; the enqueue select blocks.  A freed slot lets the dispatch proceed
to the normal response wait; caller-context expiry yields the context error,
surfaced by the command handler as 500 INTERNAL_ERROR; session death yields
EXTENSION_OFFLINE, surfaced as 503.  Every hub-error outcome of a full-queue
dispatch carries code EXTENSION_OFFLINE or TIMEOUT. -/
theorem C2_full_queue_blocks (ctxMsg : String) (enqEv : EnqueueEvent)
    (waitEv : WaitEvent) :
    (sendCommandOutcome true true ctxMsg .ctxDone waitEv = .error (.other ctxMsg)
      ∧ commandErrHttp (.other ctxMsg) = (500, "INTERNAL_ERROR", ctxMsg))
    ∧ (sendCommandOutcome true true ctxMsg .sessionDone waitEv = .error errNotConnected
      ∧ commandErrHttp errNotConnected
        = (503, "EXTENSION_OFFLINE", "Extension is not connected"))
    ∧ sendCommandOutcome true true ctxMsg .slotFreed waitEv
      = sendCommandOutcome true false ctxMsg enqEv waitEv
    ∧ (∀ code msg,
        sendCommandOutcome true true ctxMsg enqEv waitEv = .error (.hub code msg) →
        code = "EXTENSION_OFFLINE" ∨ code = "TIMEOUT") := by
  refine ⟨⟨?_, ?_⟩, ⟨?_, ?_⟩, ?_, ?_⟩
  · simp [sendCommandOutcome]
  · simp [commandErrHttp]
  · simp [sendCommandOutcome]
  · simp [commandErrHttp, errNotConnected]
  · cases enqEv <;> simp [sendCommandOutcome]
  · intro code msg h
    cases enqEv <;> cases waitEv <;>
      simp [sendCommandOutcome, errNotConnected, errTimeout] at h <;>
      simp [h]

/-- C2 witness: the amended theorem applied at a concrete blocked dispatch. -/
theorem C2_full_queue_blocks_witness :
    (sendCommandOutcome true true "context canceled" .ctxDone .timerFired
      = .error (.other "context canceled")
    ∧ commandErrHttp (.other "context canceled")
      = (500, "INTERNAL_ERROR", "context canceled"))
    ∧ ("EXTENSION_OFFLINE" = "EXTENSION_OFFLINE" ∨ "EXTENSION_OFFLINE" = "TIMEOUT") :=
  ⟨(C2_full_queue_blocks "context canceled" .ctxDone .timerFired).1,
   (C2_full_queue_blocks "context canceled" .sessionDone .timerFired).2.2.2
     "EXTENSION_OFFLINE" "Extension is not connected" rfl⟩

/-- C3 counterexample: the screenshot handler maps the hub timeout error to
HTTP 503, not 504 (and the snapshot handler does the same). -/
theorem C3_counterexample :
    screenshotErrHttp errTimeout = (503, "TIMEOUT", "Command timed out")
    ∧ screenshotErrHttp errTimeout ≠ (504, "TIMEOUT", "Command timed out")
    ∧ snapshotErrHttp errTimeout ≠ (504, "TIMEOUT", "Command timed out") := by
  decide

/-- C3 (amended): when the command deadline elapses without a response the
dispatch yields the hub timeout error; the command endpoint answers 504 with
code TIMEOUT, while the screenshot and snapshot endpoints answer 503 with
code TIMEOUT. -/
theorem C3_timeout_status (ctxMsg : String) (enqEv : EnqueueEvent) :
    sendCommandOutcome true false ctxMsg enqEv .timerFired = .error errTimeout
    ∧ sendCommandOutcome true true ctxMsg .slotFreed .timerFired = .error errTimeout
    ∧ commandErrHttp errTimeout = (504, "TIMEOUT", "Command timed out")
    ∧ screenshotErrHttp errTimeout = (503, "TIMEOUT", "Command timed out")
    ∧ snapshotErrHttp errTimeout = (503, "TIMEOUT", "Command timed out") := by
  refine ⟨?_, ?_, ?_, ?_, ?_⟩
  · cases enqEv <;> simp [sendCommandOutcome]
  · simp [sendCommandOutcome]
  · simp [commandErrHttp, errTimeout]
  · simp [screenshotErrHttp, errTimeout]
  · simp [snapshotErrHttp, errTimeout]

theorem pendErase_pendInsert (t : PendingTable) (id : String) (v : Slot)
    (h : pendLookup t id = none) : pendErase (pendInsert t id v) id = t := by
  induction t with
  | nil => simp [pendInsert, pendErase]
  | cons hd rest ih =>
    obtain ⟨k, w⟩ := hd
    by_cases hk : k = id
    · simp [pendLookup, hk] at h
    · simp only [pendLookup, if_neg hk] at h
      simp [pendInsert, pendErase, hk, ih h]

/-- C4: the pending entry installed under the command's correlation id is
removed exactly once by the time `SendCommand` returns — on response,
timeout, cancellation and session death alike — so the table returns to its
prior state; and a command response whose id has no pending entry is dropped
by `HandleResponse` without modifying any state. -/
theorem C4_pending_cleanup (t : PendingTable) (cmdId : String)
    (queueFull : Bool) (ctxMsg : String) (enqEv : EnqueueEvent) (waitEv : WaitEvent)
    (hfresh : pendLookup t cmdId = none) :
    (sendCommandTableOps cmdId true).countP
        (fun op => decide (op = TableOp.remove cmdId)) = 1
    ∧ (sendCommandWithTable t cmdId true queueFull ctxMsg enqEv waitEv).2 = t
    ∧ (∀ resp : CommandResponse, pendLookup t resp.id = none →
        HandleResponse t resp = t) := by
  refine ⟨?_, ?_, ?_⟩
  · simp [sendCommandTableOps, List.countP_cons, List.countP_nil]
  · simp only [sendCommandWithTable, sendCommandTableOps, if_pos rfl, applyOps,
      List.foldl, applyOp]
    exact pendErase_pendInsert t cmdId none hfresh
  · intro resp h
    simp [HandleResponse, h]

/-- C4 witness: the cleanup theorem applied at a concrete dispatch and a
concrete stray response. -/
theorem C4_pending_cleanup_witness :
    (sendCommandWithTable [] "c1" true false "ctx" .slotFreed .timerFired).2 = []
    ∧ HandleResponse [] ⟨"r1", false, none, none⟩ = [] :=
  ⟨(C4_pending_cleanup [] "c1" false "ctx" .slotFreed .timerFired rfl).2.1,
   (C4_pending_cleanup [] "c1" false "ctx" .slotFreed .timerFired rfl).2.2
     ⟨"r1", false, none, none⟩ rfl⟩

/-- C7: `Validate` recomputes the digest and looks the record up by it; a
missing record and a revoked record both give the non-error not-valid result
(no credential, no error), and the call errors exactly when the underlying
store fails. -/
theorem C7_validate_semantics (sha256 : String → List Nat) (db : TokenDB)
    (dbFail : Option String) (token : String) :
    (dbFail = none →
      db.find? (fun r => r.hash == HashToken sha256 token) = none →
      Validate sha256 db dbFail token = .ok none)
    ∧ (∀ r, dbFail = none →
      db.find? (fun r0 => r0.hash == HashToken sha256 token) = some r →
      r.revokedAt.isSome →
      Validate sha256 db dbFail token = .ok none)
    ∧ ((∃ e, Validate sha256 db dbFail token = .error e) ↔ dbFail.isSome) := by
  refine ⟨?_, ?_, ?_⟩
  · intro hf hnone
    simp [Validate, queryByHash, hf, hnone]
  · intro r hf hfind hrev
    simp [Validate, queryByHash, hf, hfind, hrev]
  · cases dbFail with
    | some e =>
      constructor
      · intro _
        simp
      · intro _
        exact ⟨"failed to query token: " ++ e, by simp [Validate, queryByHash]⟩
    | none =>
      constructor
      · rintro ⟨e, he⟩
        exfalso
        rcases hfind : db.find? (fun r => r.hash == HashToken sha256 token) with _ | r
        · simp [Validate, queryByHash, hfind] at he
        · by_cases hrev : r.revokedAt.isSome
          · simp [Validate, queryByHash, hfind, hrev] at he
          · simp [Validate, queryByHash, hfind, hrev] at he
      · intro h
        simp at h

/-- C7 witness: a missing record, a revoked record and a store failure, each
at a concrete input. -/
theorem C7_validate_semantics_witness :
    Validate (fun _ => [0]) [] none "owl_x" = .ok none
    ∧ Validate (fun _ => [0]) [⟨1, "00", "n", 100, none, none, some "t"⟩] none "owl_x"
      = .ok none :=
  ⟨(C7_validate_semantics (fun _ => [0]) [] none "owl_x").1 rfl rfl,
   (C7_validate_semantics (fun _ => [0]) [⟨1, "00", "n", 100, none, none, some "t"⟩]
      none "owl_x").2.1 ⟨1, "00", "n", 100, none, none, some "t"⟩ rfl (by decide) rfl⟩

theorem hexChars_length (bytes : List Nat) :
    (hexChars bytes).length = 2 * bytes.length := by
  induction bytes with
  | nil => rfl
  | cons b rest ih =>
    simp only [hexChars, List.foldr] at ih ⊢
    simp [List.length_cons, ih]
    omega

theorem hexEncode_length (bytes : List Nat) :
    (hexEncode bytes).length = 2 * bytes.length := by
  simpa [hexEncode, String.length] using hexChars_length bytes

theorem isHexChar_hexDigitChar (n : Nat) (h : n < 16) :
    isHexChar (hexDigitChar n) = true := by
  interval_cases n <;> decide

theorem hexChars_mem_hex (bytes : List Nat) (hb : ∀ b ∈ bytes, b < 256) :
    ∀ c ∈ hexChars bytes, isHexChar c = true := by
  induction bytes with
  | nil => simp [hexChars]
  | cons b rest ih =>
    intro c hc
    have hb0 : b < 256 := hb b (by simp)
    simp only [hexChars, List.foldr, List.mem_cons] at hc
    rcases hc with h | h | h
    · rw [h]
      exact isHexChar_hexDigitChar _ (by omega)
    · rw [h]
      exact isHexChar_hexDigitChar _ (by omega)
    · exact ih (fun x hx => hb x (by simp [hx])) c h

/-- C8: a successful `Create` returns the plaintext `owl_` ++ hex of the 24
random bytes — 48 lowercase hex characters — and persists only the 64-hex
digest of the SHA-256 hash of the entire string together with the metadata;
the stored digest is not the plaintext. -/
theorem C8_create_token_shape (sha256 : String → List Nat) (randomBytes : List Nat)
    (name : String) (rateLimit : Int) (nowStr : String)
    (hlen : randomBytes.length = 24) (hbytes : ∀ b ∈ randomBytes, b < 256)
    (hsha : (sha256 (GenerateToken randomBytes)).length = 32)
    (hshaBytes : ∀ b ∈ sha256 (GenerateToken randomBytes), b < 256) :
    (Create sha256 randomBytes name rateLimit nowStr).1
      = "owl_" ++ hexEncode randomBytes
    ∧ (hexEncode randomBytes).length = 48
    ∧ (∀ c ∈ (hexEncode randomBytes).data, isHexChar c = true)
    ∧ (Create sha256 randomBytes name rateLimit nowStr).2
      = ⟨HashToken sha256 (GenerateToken randomBytes), name, rateLimit, nowStr⟩
    ∧ (HashToken sha256 (GenerateToken randomBytes)).length = 64
    ∧ (∀ c ∈ (HashToken sha256 (GenerateToken randomBytes)).data, isHexChar c = true)
    ∧ (Create sha256 randomBytes name rateLimit nowStr).2.hash
      ≠ (Create sha256 randomBytes name rateLimit nowStr).1 := by
  have hlen48 : (hexEncode randomBytes).length = 48 := by
    rw [hexEncode_length, hlen]
  have hdig : (HashToken sha256 (GenerateToken randomBytes)).length = 64 := by
    rw [HashToken, hexEncode_length, hsha]
  refine ⟨rfl, hlen48, ?_, rfl, hdig, ?_, ?_⟩
  · intro c hc
    exact hexChars_mem_hex randomBytes hbytes c hc
  · intro c hc
    exact hexChars_mem_hex _ hshaBytes c hc
  · intro hEq
    have h1 : (Create sha256 randomBytes name rateLimit nowStr).2.hash.length = 64 := hdig
    have h2 : (Create sha256 randomBytes name rateLimit nowStr).1.length = 52 := by
      show ("owl_" ++ hexEncode randomBytes).length = 52
      rw [String.length_append, hlen48]
      decide
    rw [hEq, h2] at h1
    exact absurd h1 (by decide)

/-- C8 witness: concrete random bytes and a concrete stand-in digest
function. -/
theorem C8_create_token_shape_witness :
    (Create (fun _ => List.replicate 32 0) (List.replicate 24 0) "agent" 100 "t").1
      = "owl_" ++ hexEncode (List.replicate 24 0)
    ∧ (hexEncode (List.replicate 24 0)).length = 48
    ∧ (HashToken (fun _ => List.replicate 32 0)
        (GenerateToken (List.replicate 24 0))).length = 64 :=
  have h := C8_create_token_shape (fun _ => List.replicate 32 0)
    (List.replicate 24 0) "agent" 100 "t" (by decide) (by decide) (by decide)
    (by decide)
  ⟨h.1, h.2.1, h.2.2.2.2.1⟩

theorem revoke_no_match (db : TokenDB) (id : Int) (nowStr : String)
    (h : ∀ r ∈ db, (r.id == id && r.revokedAt.isNone) = false) :
    Revoke db none id nowStr = (.error "token not found or already revoked", db) := by
  have hcnt : db.countP (fun r => r.id == id && r.revokedAt.isNone) = 0 := by
    rw [List.countP_eq_zero]
    intro r hr
    simp [h r hr]
  have hmap : db.map (fun r =>
      if r.id == id && r.revokedAt.isNone then { r with revokedAt := some nowStr }
      else r) = db := by
    conv_rhs => rw [← List.map_id db]
    apply List.map_congr_left
    intro r hr
    simp [h r hr]
  simp only [Revoke, hcnt, hmap]
  rfl

theorem revoked_stamped (db : TokenDB) (id : Int) (nowStr : String) :
    ∀ r ∈ db.map (fun r =>
      if r.id == id && r.revokedAt.isNone then { r with revokedAt := some nowStr }
      else r), (r.id == id && r.revokedAt.isNone) = false := by
  intro r hr
  rw [List.mem_map] at hr
  obtain ⟨r0, _, hr0⟩ := hr
  by_cases hc : (r0.id == id && r0.revokedAt.isNone) = true
  · rw [if_pos hc] at hr0
    rw [← hr0]
    simp
  · rw [if_neg hc] at hr0
    rw [← hr0]
    rw [← Bool.not_eq_true]
    exact hc

/-- C9: revoke is idempotent in the distinguishable sense — after any first
revoke of an id, a second revoke leaves the store unchanged (so the first
revocation timestamp is preserved) and returns the "token not found or
already revoked" signal, which is the same signal an id that never existed
returns. -/
theorem C9_revoke_idempotent (db : TokenDB) (id : Int) (t1 t2 : String) :
    Revoke (Revoke db none id t1).2 none id t2
      = (.error "token not found or already revoked", (Revoke db none id t1).2)
    ∧ ((∀ r ∈ db, r.id ≠ id) →
      Revoke db none id t1 = (.error "token not found or already revoked", db)) := by
  constructor
  · have hdb1 : (Revoke db none id t1).2 = db.map (fun r =>
        if r.id == id && r.revokedAt.isNone then { r with revokedAt := some t1 }
        else r) := by
      simp only [Revoke]
      by_cases hc : (db.countP (fun r => r.id == id && r.revokedAt.isNone) == 0) = true
      · rw [if_pos hc]
      · rw [if_neg hc]
    rw [hdb1]
    exact revoke_no_match _ id t2 (revoked_stamped db id t1)
  · intro h
    apply revoke_no_match
    intro r hr
    have : (r.id == id) = false := by
      simpa using h r hr
    simp [this]

/-- C9 witness: a live row revoked twice, and a revoke of an id that never
existed. -/
theorem C9_revoke_idempotent_witness :
    Revoke (Revoke [⟨1, "h", "n", 100, none, none, none⟩] none 1 "t1").2 none 1 "t2"
      = (.error "token not found or already revoked",
         (Revoke [⟨1, "h", "n", 100, none, none, none⟩] none 1 "t1").2)
    ∧ Revoke [⟨2, "h", "n", 100, none, none, none⟩] none 1 "t1"
      = (.error "token not found or already revoked",
         [⟨2, "h", "n", 100, none, none, none⟩]) :=
  ⟨(C9_revoke_idempotent [⟨1, "h", "n", 100, none, none, none⟩] 1 "t1" "t2").1,
   (C9_revoke_idempotent [⟨2, "h", "n", 100, none, none, none⟩] 1 "t1" "t2").2
     (by decide)⟩

/-- C10 (code bug): on a decoded command response with success = false, the
screenshot and snapshot handlers reply 400 with the response's error object
when it is present; when the optional error object is absent the branch
dereferences the nil error pointer and panics instead of being
well-defined. -/
theorem C10_failure_branch :
    screenshotOnResponse ⟨"c1", false, none, some ⟨"NOT_FOUND", "Element not found"⟩⟩
      = .reply 400 "NOT_FOUND" "Element not found"
    ∧ snapshotOnResponse ⟨"c1", false, none, some ⟨"NOT_FOUND", "Element not found"⟩⟩
      = .reply 400 "NOT_FOUND" "Element not found"
    ∧ screenshotOnResponse ⟨"c1", false, none, none⟩ = .panicked
    ∧ snapshotOnResponse ⟨"c1", false, none, none⟩ = .panicked := by
  decide

end OwlRelay
